import Mathlib

/-!
Shallow embedding of the go-dns-caching-resolver library
(files `host.go`, `ips.go`, `resolver.go` and the dnsClient file).

Machine integers are modelled as `Nat` with explicit reduction modulo the
word size where overflow can occur (`uint64` rotation counters), and as
`Int` for Unix timestamps.  Fallible operations return `Option`/`Except`.
Network effects (a DNS exchange against one nameserver, the OS resolver)
are passed in as explicit function arguments, so that every definition
stays executable and the control flow of the Go source is reproduced
exactly.
-/

namespace DnsResolver

/-- `2^64`, the modulus of Go's `uint64` arithmetic. -/
def U64 : Nat := 2 ^ 64

/-- `math.MaxUint32`, the "no records seen" sentinel for a family's
minimum TTL in `dnsLookupHost`. -/
def maxUint32 : Nat := 2 ^ 32 - 1

/-- `defaultTtl = 60` (seconds) from the dnsClient file. -/
def defaultTtl : Nat := 60

/-- `retryIntervalSec = 10` from `host.go`. -/
def retryIntervalSec : Nat := 10

/-- `oldHostDuration = 30 * time.Minute` from `host.go`, in seconds. -/
def oldHostDurationSec : Int := 30 * 60

/-! ## `ips.go` — the AddressSet -/

/-- The `ips` struct of `ips.go`: a `uint64` round-robin cursor
(invariant: `ipIdx < U64`) and the list of addresses (net.IP values are
modelled as strings). -/
structure Ips where
  ipIdx : Nat
  ipList : List String
  deriving Repr, DecidableEq

/-- `newIps` from `ips.go`. -/
def newIps : Ips := { ipIdx := 0, ipList := [] }

/-- `(*ips).setIpList`: replaces the stored sequence; does not reset the
rotation cursor. -/
def Ips.setIpList (i : Ips) (ipList : List String) : Ips :=
  { i with ipList := ipList }

/-- `(*ips).getNextIPWithIndex`: if the list is empty, returns the
"no address" sentinel (`none`) and index 0 without touching the cursor;
otherwise reads the element at `ipIdx % len`, then increments the
`uint64` cursor (wrapping modulo `2^64`). -/
def Ips.getNextIPWithIndex (i : Ips) : (Option String × Nat) × Ips :=
  if i.ipList.length = 0 then
    ((none, 0), i)
  else
    let idx := i.ipIdx % i.ipList.length
    ((i.ipList.get? idx, idx), { i with ipIdx := (i.ipIdx + 1) % U64 })

/-- `(*ips).getList`. -/
def Ips.getList (i : Ips) : List String := i.ipList

/-! ## dnsClient — `dnsLookupHost`, `lookupHost`, `setNameServers` -/

/-- The quadruple returned by `lookupHost`/`dnsLookupHost`:
`([]net.IP, []net.IP, uint32, error)`. -/
structure LookupResult where
  ip4 : List String
  ip6 : List String
  ttl : Nat
  err : Option String
  deriving Repr, DecidableEq

/-- The per-family minimum-TTL fold of `dnsLookupHost`: starting from the
`math.MaxUint32` sentinel, `if dnsRec.Header().Ttl < ttl { ttl = ... }`
for each answer record. -/
def minTtlFold (ttls : List Nat) : Nat :=
  ttls.foldl (fun acc t => if t < acc then t else acc) maxUint32

/-- The TTL-selection tail of `dnsLookupHost`:

```go
var ttl uint32 = defaultTtl
if ttl4 > defaultTtl && ttl4 != math.MaxUint32 { ttl = ttl4 }
if ttl6 > defaultTtl && ttl6 != math.MaxUint32 && ttl6 < ttl4 { ttl = ttl6 }
```
-/
def selectTtl (ttl4 ttl6 : Nat) : Nat :=
  let ttl := defaultTtl
  let ttl := if ttl4 > defaultTtl ∧ ttl4 ≠ maxUint32 then ttl4 else ttl
  if ttl6 > defaultTtl ∧ ttl6 ≠ maxUint32 ∧ ttl6 < ttl4 then ttl6 else ttl

/-- `dnsLookupHost`, the dual A/AAAA query against one nameserver.  Each
side's exchange outcome is passed in: `.error e` is a failed
`dns.Exchange`, `.ok recs` a successful one whose matching answer
records are `(address, TTL)` pairs.  A failed side contributes no
addresses and leaves its minimum TTL at the sentinel; `g.Wait()` yields
an error as soon as either side failed (modelled as the A-side error
first).  The collected addresses and the selected TTL are returned even
when the attempt errors, exactly as the Go code returns
`ip4, ip6, ttl, g.Wait()`. -/
def dnsLookupHost (r4 r6 : Except String (List (String × Nat))) : LookupResult :=
  let ip4 := match r4 with | .ok recs => recs.map Prod.fst | .error _ => []
  let ttl4 := match r4 with
    | .ok recs => minTtlFold (recs.map Prod.snd)
    | .error _ => maxUint32
  let ip6 := match r6 with | .ok recs => recs.map Prod.fst | .error _ => []
  let ttl6 := match r6 with
    | .ok recs => minTtlFold (recs.map Prod.snd)
    | .error _ => maxUint32
  { ip4 := ip4
    ip6 := ip6
    ttl := selectTtl ttl4 ttl6
    err := match r4, r6 with
      | .error e, _ => some e
      | _, .error e => some e
      | _, _ => none }

/-- Go's `int(x)` conversion of a `uint64` value `x < 2^64` to a signed
64-bit integer: values at or above `2^63` become negative. -/
def toInt64 (c : Nat) : Int :=
  if c < 2 ^ 63 then (c : Int) else (c : Int) - 2 ^ 64

/-- The per-iteration nameserver selection of `lookupHost`:
`nsIdx := int(nsCounter) % len(nameServers); nServer := nameServers[nsIdx]`.
The `uint64` counter is first converted to a signed `int`, and Go's `%`
truncates toward zero (`Int.tmod`), so the remainder carries the sign of
the dividend.  A `%` by a zero length is a Go runtime fault, and so is
indexing with a negative remainder (which happens for counters in
`[2^63, 2^64)` whenever the length does not divide the converted
value); both faults are modelled as `none`. -/
def selectNs (c : Nat) (l : List String) : Option String :=
  if l.length = 0 then none
  else
    let idx := Int.tmod (toInt64 c) (l.length : Int)
    if h : 0 ≤ idx ∧ idx < (l.length : Int) then
      some (l.get ⟨idx.toNat, by
        rcases h with ⟨h1, h2⟩
        omega⟩)
    else none

/-- `strings.Contains(addr, ":")`, the v4/v6 partition test of the
OS-resolver fallback path. -/
def containsColon (s : String) : Bool := s.contains ':'

/-- The OS-fallback partition loop of `lookupHost`: addresses that parse
(`valid`) are split into v4 (`ips[false]`) and v6 (`ips[true]`) by the
colon test; unparsable ones are skipped. -/
def partitionAddrs (valid : String → Bool) (addrs : List String) :
    List String × List String :=
  (addrs.filter fun a => valid a && !containsColon a,
   addrs.filter fun a => valid a && containsColon a)

/-- The failover loop of `lookupHost`.  `obs i` is the nameserver list
observed under the read lock acquired in loop iteration `i` (the lock is
released between iterations, so a concurrent `setNameServers` may change
what is observed); `q` is `dnsLookupHost` against a given nameserver;
`fuel` is the remaining iteration count (`nsCnt` at the start); `c` is
the `uint64` rotation counter `nsCounter`; `cur` holds the last assigned
`(ip4, ip6, ttl, err)`.  On success the loop breaks with the counter
unchanged; on failure the counter is incremented (mod `2^64`) and the
next iteration runs.  A selection fault (`% 0`) aborts with `none`. -/
def lookupLoop (obs : Nat → List String) (q : String → LookupResult) :
    Nat → Nat → Nat → LookupResult → Option (LookupResult × Nat)
  | _, 0, c, cur => some (cur, c)
  | i, fuel + 1, c, _cur =>
    match selectNs c (obs i) with
    | none => none
    | some srv =>
      let res := q srv
      if res.err = none then some (res, c)
      else lookupLoop obs q (i + 1) fuel ((c + 1) % U64) res

/-- `(*dnsClient).lookupHost`.  `obs 0` is the list observed by the
initial `nsCnt` read under the read lock; `obs (i+1)` the list observed
in loop iteration `i`.  `osLookup` is the outcome of `net.LookupHost`
(used only when `nsCnt == 0`), `valid` is `net.ParseIP(addr) != nil`,
`q` the dual query against one nameserver, `c` the shared rotation
counter.  Returns the result and the final counter, or `none` on a
selection fault. -/
def lookupHost (obs : Nat → List String)
    (osLookup : Except String (List String)) (valid : String → Bool)
    (q : String → LookupResult) (c : Nat) : Option (LookupResult × Nat) :=
  let nsCnt := (obs 0).length
  if nsCnt = 0 then
    match osLookup with
    | .error _ => some ({ ip4 := [], ip6 := [], ttl := defaultTtl, err := none }, c)
    | .ok addrs =>
      let p := partitionAddrs valid addrs
      some ({ ip4 := p.1, ip6 := p.2, ttl := defaultTtl, err := none }, c)
  else
    lookupLoop obs q 1 nsCnt c { ip4 := [], ip6 := [], ttl := 0, err := none }

/-! ## `host.go` — the HostEntry -/

/-- The `host` struct of `host.go`.  `lastTime` is the Unix-seconds
last-access timestamp; `eaFlag` marks an explicitly added host;
`stopped` records whether `stop()` has closed the entry's `stopCh`
(i.e. whether the background `reloadIPsLoop` task has been signaled to
stop). -/
structure Host where
  hostName : String
  eaFlag : Bool
  ip4 : Ips
  ip6 : Ips
  lastTime : Int
  stopped : Bool
  deriving Repr, DecidableEq

/-- `newHost` from `host.go` (the spawned `reloadIPsLoop` goroutine is
represented by the `stopped := false` flag: the task runs until the
entry's stop channel is closed). -/
def newHost (hName : String) (eaFlag : Bool) (now : Int) : Host :=
  { hostName := hName
    eaFlag := eaFlag
    ip4 := newIps
    ip6 := newIps
    lastTime := now
    stopped := false }

/-- `(*host).reloadIPs`: one refresh step.  `res` is what
`dnsClient.lookupHost` returned for this host.  On error the entry is
left untouched and the fixed retry interval is returned as the next
wait; on success both AddressSets are replaced wholesale and the looked
up TTL is returned. -/
def Host.reloadIPs (h : Host) (res : LookupResult) : Host × Nat :=
  match res.err with
  | some _ => (h, retryIntervalSec)
  | none =>
    ({ h with ip4 := h.ip4.setIpList res.ip4, ip6 := h.ip6.setIpList res.ip6 },
     res.ttl)

/-- `(*host).isOld` from `host.go`, verbatim:

```go
lastTime := atomic.LoadInt64(&h.lastTime)
return lastTime < time.Now().Unix()-time.Now().Add(-oldHostDuration).Unix()
```

Both `time.Now()` calls are modelled as the same instant `now`. -/
def Host.isOld (h : Host) (now : Int) : Bool :=
  h.lastTime < now - (now - oldHostDurationSec)

/-- `(*host).isExplicitlyAdded`. -/
def Host.isExplicitlyAdded (h : Host) : Bool := h.eaFlag

/-- `(*host).stop`: closes the entry's stop channel. -/
def Host.stop (h : Host) : Host := { h with stopped := true }

/-- `(*host).updLastTime`. -/
def Host.updLastTime (h : Host) (now : Int) : Host := { h with lastTime := now }

/-! ## `resolver.go` — the Registry

The Go `hosts` map holds `*host` pointers; to reason about what happens
to an entry after it leaves the map (in particular whether its
background task was ever signaled to stop) the heap is made explicit:
`hosts` maps a hostname to an entry id, and `entries` is the store of
every `host` object ever allocated, keyed by id.  `nextId` counts
allocations — each `newHost` call starts exactly one background task,
so `nextId` is also the number of background tasks ever started. -/

/-- The `Resolver` struct's mutable state. -/
structure Registry where
  hosts : List (String × Nat)
  entries : List (Nat × Host)
  nextId : Nat
  deriving Repr, DecidableEq

/-- A fresh `Resolver` (`New`): empty map, nothing allocated. -/
def emptyRegistry : Registry := { hosts := [], entries := [], nextId := 0 }

/-- The write-locked section shared by `AddHost` and the implicit
creation paths of `GetNextIPWithIdx` / `GetNextIP6WithIdx`: re-check
the map under the exclusive lock and create the entry only if it is
still absent (`ea` is the explicit/implicit flag passed to `newHost`).
Returns the updated registry and the id of the entry now mapped to
`n`. -/
def Registry.getOrCreateLocked (r : Registry) (n : String) (ea : Bool)
    (now : Int) : Registry × Nat :=
  match r.hosts.lookup n with
  | some id => (r, id)
  | none =>
    ({ hosts := (n, r.nextId) :: r.hosts
       entries := (r.nextId, newHost n ea now) :: r.entries
       nextId := r.nextId + 1 }, r.nextId)

/-- `(*Resolver).AddHost`: read-locked pre-check, then the
double-checked write-locked creation with `eaFlag = true`. -/
def Registry.addHost (r : Registry) (n : String) (now : Int) : Registry :=
  if (r.hosts.lookup n).isSome then r
  else (r.getOrCreateLocked n true now).1

/-- The entry-obtaining skeleton of `GetNextIPWithIdx` /
`GetNextIP6WithIdx`: read-locked lookup; when the hostname is absent,
the double-checked write-locked creation with `eaFlag = false`. -/
def Registry.implicitEnsure (r : Registry) (n : String) (now : Int) :
    Registry × Nat :=
  match r.hosts.lookup n with
  | some id => (r, id)
  | none => r.getOrCreateLocked n false now

/-- `(*Resolver).delHosts`: removes each named host from the map.  Note
that, unlike `emptyHosts`, it performs no `stop()` call, so the removed
entries in the store keep `stopped = false`. -/
def Registry.delHosts (r : Registry) (names : List String) : Registry :=
  { r with hosts := r.hosts.filter fun p => !(names.contains p.1) }

/-- `(*Resolver).DelHost`. -/
def Registry.delHost (r : Registry) (n : String) : Registry :=
  r.delHosts [n]

/-- `(*Resolver).emptyHosts` (run on `Stop()`): calls `stop()` on every
entry currently in the map, then clears the map. -/
def Registry.emptyHosts (r : Registry) : Registry :=
  { r with
    hosts := []
    entries := r.entries.map fun p =>
      if (r.hosts.map Prod.snd).contains p.1 then (p.1, p.2.stop) else p }

/-- One tick of `oldHostsDeleteLoop`: under the read lock, collect the
hostnames whose entry is old and not explicitly added; then remove them
via `delHosts`. -/
def Registry.sweepTick (r : Registry) (now : Int) : Registry :=
  let hostsToDel := (r.hosts.filter fun p =>
    match r.entries.lookup p.2 with
    | some h => h.isOld now && !h.isExplicitlyAdded
    | none => false).map Prod.fst
  r.delHosts hostsToDel

/-- `ipStrIdx` from `resolver.go`. -/
def ipStrIdx (ip : Option String) (idx : Nat) : String × Int :=
  match ip with
  | none => ("", -1)
  | some s => (s, idx)

/-! ## Concrete fixtures used by the claim theorems -/

/-- An implicitly created entry whose last access (`1699996400`) is one
hour before the sweep instant `1700000000` — well past the 30-minute
staleness bound. -/
def rStale : Registry :=
  (emptyRegistry.getOrCreateLocked "cdn.example" false 1699996400).1

/-- A registry with one explicitly registered host. -/
def rDb : Registry := emptyRegistry.addHost "db.example" 100

/-- The three-nameserver pool of the spec's failover scenario. -/
def ns3 : List String := ["10.0.0.1", "10.0.0.2", "10.0.0.3"]

/-- The successful answer `10.0.0.2` gives in the failover scenario. -/
def okRes : LookupResult :=
  { ip4 := ["5.5.5.5"], ip6 := [], ttl := 120, err := none }

/-- Dual-query outcomes where only `10.0.0.2` answers. -/
def qOnly2 (srv : String) : LookupResult :=
  if srv = "10.0.0.2" then okRes
  else { ip4 := [], ip6 := [], ttl := 0, err := some ("dial error " ++ srv) }

/-- Dual-query outcomes where every nameserver fails, each with its own
error. -/
def qAllFail (srv : String) : LookupResult :=
  { ip4 := [], ip6 := [], ttl := 0, err := some ("dial error " ++ srv) }

/-- OS-resolver outcome for scenarios that never reach the fallback
path. -/
def osUnused : Except String (List String) := .ok []

/-- A `net.ParseIP` stand-in accepting every address. -/
def validAll : String → Bool := fun _ => true

/-! ## Claim theorems -/

/-- Claim C1 (code bug): the periodic sweep is supposed to evict an
implicitly created entry whose last access is more than 30 minutes in
the past, but `isOld` computes
`lastTime < now - (now - 1800) = 1800`, comparing the Unix timestamp
against the constant 1800 (seconds after the 1970 epoch), which is
false for every real timestamp.  Concretely: an implicit entry last
accessed one hour before the sweep (far staler than 30 minutes) is
*not* collected — `isOld` returns `false` and the entry survives the
tick — contradicting the claim's "is evicted" direction.  (The
"explicitly registered entries are never auto-evicted" direction does
hold, vacuously: nothing is ever evicted.) -/
theorem c1_stale_implicit_host_survives_sweep :
    ((1699996400 : Int) < 1700000000 - oldHostDurationSec)
    ∧ Host.isOld (newHost "cdn.example" false 1699996400) 1700000000 = false
    ∧ (rStale.sweepTick 1700000000).hosts.lookup "cdn.example" = some 0
    ∧ rStale.sweepTick 1700000000 = rStale := by
  refine ⟨by decide, by decide, by decide, by decide⟩

/-- Claim C3 (code bug): `DelHost` removes the hostname from the map
(and is a no-op on an absent hostname), but it never signals the
entry's background task to stop: `delHosts` contains no `stop()` call,
so after removal the entry's stop channel is still open
(`stopped = false`) and its `reloadIPsLoop` task keeps running —
unlike `emptyHosts`, which does stop every entry. -/
theorem c3_delhost_removes_without_stopping :
    (rDb.delHost "db.example").hosts.lookup "db.example" = none
    ∧ ((rDb.delHost "db.example").entries.lookup 0).map Host.stopped = some false
    ∧ (rDb.emptyHosts.entries.lookup 0).map Host.stopped = some true
    ∧ rDb.delHost "missing.example" = rDb := by
  refine ⟨by decide, by decide, by decide, by decide⟩

/-- Claim C5: with an empty nameserver list, a failing OS-resolver call
is swallowed — `lookupHost` returns two empty address lists, the
default TTL of 60 seconds, and a nil error (and leaves the rotation
counter untouched). -/
theorem c5_os_resolver_failure_swallowed (obs : Nat → List String)
    (e : String) (valid : String → Bool) (q : String → LookupResult)
    (c : Nat) (h : obs 0 = []) :
    lookupHost obs (.error e) valid q c
      = some ({ ip4 := [], ip6 := [], ttl := defaultTtl, err := none }, c)
      ∧ defaultTtl = 60 := by
  refine ⟨?_, rfl⟩
  simp [lookupHost, h]

theorem c5_os_resolver_failure_swallowed_witness :
    (fun _ : Nat => ([] : List String)) 0 = []
    ∧ (lookupHost (fun _ => []) (.error "no such host") validAll qAllFail 7
        = some ({ ip4 := [], ip6 := [], ttl := defaultTtl, err := none }, 7)
       ∧ defaultTtl = 60) :=
  ⟨rfl, c5_os_resolver_failure_swallowed (fun _ => []) "no such host"
    validAll qAllFail 7 rfl⟩

/-- Claim C7: a refresh whose lookup errored leaves the host entry
completely unchanged (both AddressSets keep serving the last good
data, the entry is not torn down, no error reaches readers) and
returns the fixed 10-second retry interval as the next wait. -/
theorem c7_failed_refresh_keeps_state (h : Host) (res : LookupResult)
    (e : String) (herr : res.err = some e) :
    h.reloadIPs res = (h, retryIntervalSec) ∧ retryIntervalSec = 10 := by
  refine ⟨?_, rfl⟩
  simp [Host.reloadIPs, herr]

theorem c7_failed_refresh_keeps_state_witness :
    (qAllFail "10.0.0.1").err = some "dial error 10.0.0.1"
    ∧ ((newHost "db.example" true 100).reloadIPs (qAllFail "10.0.0.1")
        = (newHost "db.example" true 100, retryIntervalSec)
       ∧ retryIntervalSec = 10) :=
  ⟨rfl, c7_failed_refresh_keeps_state (newHost "db.example" true 100)
    (qAllFail "10.0.0.1") "dial error 10.0.0.1" rfl⟩

/-- Claim C10: with zero nameservers and a failing OS resolver, the
swallowed failure makes `reloadIPs` overwrite both AddressSets with
empty lists — discarding the last good data — and return the default
TTL of 60 seconds as the next wait instead of the 10-second retry
interval. -/
theorem c10_os_failure_discards_cached_addresses (e : String) (hst : Host)
    (valid : String → Bool) (q : String → LookupResult) (c : Nat) :
    lookupHost (fun _ => []) (.error e) valid q c
      = some ({ ip4 := [], ip6 := [], ttl := defaultTtl, err := none }, c)
    ∧ (hst.reloadIPs { ip4 := [], ip6 := [], ttl := defaultTtl, err := none }).1.ip4.ipList = []
    ∧ (hst.reloadIPs { ip4 := [], ip6 := [], ttl := defaultTtl, err := none }).1.ip6.ipList = []
    ∧ (hst.reloadIPs { ip4 := [], ip6 := [], ttl := defaultTtl, err := none }).2 = defaultTtl
    ∧ defaultTtl ≠ retryIntervalSec := by
  refine ⟨rfl, rfl, rfl, rfl, by decide⟩

theorem c10_os_failure_discards_cached_addresses_witness :
    lookupHost (fun _ => []) (.error "no such host") validAll qAllFail 0
      = some ({ ip4 := [], ip6 := [], ttl := defaultTtl, err := none }, 0)
    ∧ (((rDb.entries.lookup 0).getD (newHost "x" true 0)).reloadIPs
        { ip4 := [], ip6 := [], ttl := defaultTtl, err := none }).1.ip4.ipList = []
    ∧ (((rDb.entries.lookup 0).getD (newHost "x" true 0)).reloadIPs
        { ip4 := [], ip6 := [], ttl := defaultTtl, err := none }).1.ip6.ipList = []
    ∧ (((rDb.entries.lookup 0).getD (newHost "x" true 0)).reloadIPs
        { ip4 := [], ip6 := [], ttl := defaultTtl, err := none }).2 = defaultTtl
    ∧ defaultTtl ≠ retryIntervalSec :=
  c10_os_failure_discards_cached_addresses "no such host"
    ((rDb.entries.lookup 0).getD (newHost "x" true 0)) validAll qAllFail 0

/-- Claim C2, counterexample: the claim says that when only the AAAA
family has an observed above-floor TTL it is adopted, giving 200 for
A-TTL = 40 (observed, below floor) and AAAA-TTL = 200.  The code's
second guard requires `ttl6 < ttl4`, i.e. `200 < 40`, which fails, so
the floor 60 is returned instead of 200. -/
theorem c2_below_floor_a_blocks_aaaa :
    (dnsLookupHost (.ok [("10.0.0.7", 40)]) (.ok [("abcd::1", 200)])).ttl = 60
    ∧ (60 : Nat) ≠ 200 := by
  refine ⟨by decide, by decide⟩

/-- Claim C2, amended: the effective TTL of `dnsLookupHost` is
`selectTtl` of the two per-family minimum TTLs (sentinel
`maxUint32` when a family saw no records), and `selectTtl` adopts: the
minimum of the two when both are observed and above the floor; the A
TTL when only it is observed-and-above-floor; the AAAA TTL when it is
observed-and-above-floor and the A family saw *no records at all*
(`ttl4 = maxUint32`); and the floor 60 otherwise — in particular, an
A family observed with a below-floor TTL blocks adoption of an
above-floor AAAA TTL.  The result is never below the floor. -/
theorem c2_ttl_selection_rule (ttl4 ttl6 : Nat)
    (recs4 recs6 : List (String × Nat)) (h6 : ttl6 ≤ maxUint32) :
    (dnsLookupHost (.ok recs4) (.ok recs6)).ttl
      = selectTtl (minTtlFold (recs4.map Prod.snd)) (minTtlFold (recs6.map Prod.snd))
    ∧ selectTtl ttl4 ttl6 =
        (if defaultTtl < ttl4 ∧ ttl4 ≠ maxUint32 then
          (if defaultTtl < ttl6 ∧ ttl6 ≠ maxUint32 then min ttl4 ttl6 else ttl4)
         else if defaultTtl < ttl6 ∧ ttl6 ≠ maxUint32 ∧ ttl4 = maxUint32 then ttl6
         else defaultTtl)
    ∧ defaultTtl ≤ selectTtl ttl4 ttl6 := by
  have hmax : maxUint32 = 4294967295 := by decide
  refine ⟨rfl, ?_, ?_⟩
  · rw [hmax] at h6 ⊢
    simp only [selectTtl, defaultTtl, hmax]
    split_ifs <;> omega
  · simp only [selectTtl, defaultTtl, hmax]
    split_ifs <;> omega

theorem c2_ttl_selection_rule_witness :
    (200 : Nat) ≤ maxUint32
    ∧ ((dnsLookupHost (.ok [("10.0.0.7", 40)]) (.ok [("abcd::1", 200)])).ttl
        = selectTtl (minTtlFold ([("10.0.0.7", 40)].map Prod.snd))
            (minTtlFold ([("abcd::1", 200)].map Prod.snd))
       ∧ selectTtl 40 200 =
           (if defaultTtl < 40 ∧ (40 : Nat) ≠ maxUint32 then
             (if defaultTtl < 200 ∧ (200 : Nat) ≠ maxUint32 then min 40 200 else 40)
            else if defaultTtl < 200 ∧ (200 : Nat) ≠ maxUint32 ∧ (40 : Nat) = maxUint32 then 200
            else defaultTtl)
       ∧ defaultTtl ≤ selectTtl 40 200) :=
  ⟨by decide, c2_ttl_selection_rule 40 200 [("10.0.0.7", 40)] [("abcd::1", 200)]
    (by decide)⟩

/-- Claim C4, counterexample: with pool
`[10.0.0.1, 10.0.0.2, 10.0.0.3]`, only `10.0.0.2` answering, and the
rotation counter at 0, the lookup succeeds at index 1 with the counter
left at 1 — the counter is *not* advanced on success — so the next
lookup's first selection is `10.0.0.2` again (the last successful
index itself), not `10.0.0.3` (the position after it) as the claim
states. -/
theorem c4_next_lookup_reuses_successful_index :
    lookupHost (fun _ => ns3) osUnused validAll qOnly2 0 = some (okRes, 1)
    ∧ selectNs 1 ns3 = some "10.0.0.2"
    ∧ some "10.0.0.2" ≠ some "10.0.0.3" := by
  refine ⟨by decide, by decide, by decide⟩

/-- Claim C4, amended: in the same scenario the lookup succeeds within
at most 3 attempts (here: a failure at index 0, which increments the
shared counter, then success at index 1, which leaves it alone), so
every subsequent lookup begins *at* the last successful index; and
when every nameserver fails, the counter advances once per failure and
the last observed error (here `10.0.0.3`'s) is returned. -/
theorem c4_rotation_behaviour :
    lookupHost (fun _ => ns3) osUnused validAll qOnly2 0 = some (okRes, 1)
    ∧ selectNs 0 ns3 = some "10.0.0.1"
    ∧ selectNs 1 ns3 = some "10.0.0.2"
    ∧ lookupHost (fun _ => ns3) osUnused validAll qAllFail 0
        = some ({ ip4 := [], ip6 := [], ttl := 0,
                  err := some "dial error 10.0.0.3" }, 3) := by
  refine ⟨by decide, by decide, by decide, by decide⟩

/-- Helper for C6: on a nonempty list, a selection whose counter is
still below the `int` sign boundary `2^63` converts to a nonnegative
dividend, so the truncated remainder is in bounds and the selection
succeeds. -/
theorem selectNs_isSome_of_small (c : Nat) (l : List String) (hl : l ≠ [])
    (hc : c < 2 ^ 63) : (selectNs c l).isSome = true := by
  have hlen : ¬ l.length = 0 := by
    intro h0
    exact hl (List.eq_nil_of_length_eq_zero h0)
  simp only [selectNs, if_neg hlen, toInt64, if_pos hc]
  have htm : Int.tmod (c : Int) (l.length : Int) = ((c % l.length : Nat) : Int) :=
    (Int.ofNat_tmod c l.length).symm
  have hbound : c % l.length < l.length := Nat.mod_lt _ (Nat.pos_of_ne_zero hlen)
  rw [dif_pos ⟨htm ▸ Int.natCast_nonneg _, htm ▸ Int.ofNat_lt.mpr hbound⟩]
  rfl

/-- Helper for C6: the failover loop never faults as long as every
per-iteration read of the nameserver list observes a nonempty list and
every counter value used while iterating stays below `2^63`. -/
theorem lookupLoop_isSome_of_nonempty (obs : Nat → List String)
    (q : String → LookupResult) (h : ∀ i, obs i ≠ []) :
    ∀ (fuel i c : Nat), c + fuel ≤ 2 ^ 63 →
      ∀ cur : LookupResult, (lookupLoop obs q i fuel c cur).isSome = true := by
  intro fuel
  induction fuel with
  | zero => intro i c _ cur; simp [lookupLoop]
  | succ n ih =>
    intro i c hc cur
    obtain ⟨srv, hsrv⟩ := Option.isSome_iff_exists.mp
      (selectNs_isSome_of_small c (obs i) (h i) (by omega))
    simp only [lookupLoop, hsrv]
    split
    · simp
    · have hmod : (c + 1) % U64 = c + 1 := by
        have hlt : c + 1 < U64 := by
          have h63 : (2 : Nat) ^ 63 < U64 := by decide
          omega
        exact Nat.mod_eq_of_lt hlt
      rw [hmod]
      exact ih (i + 1) (c + 1) (by omega) _

/-- Claim C6, counterexample: the claim says a concurrent
`setNameServers` cannot affect an in-flight `lookupHost` and that the
per-iteration selection never operates on an empty or
shorter-than-expected list and never faults.  But the iteration count
is read under one read-lock acquisition and each loop iteration
re-reads the list under another, so if the list (observed nonempty at
the initial count read, `obs 0 = ["10.0.0.1"]`) is replaced by the
empty list before iteration 0's read (`obs 1 = []`), the selection
computes `counter % 0` — a Go runtime fault, modelled as `none`.
Moreover the selection can fault even on a stable, nonempty
three-server list: once the `uint64` counter reaches `2^63`, the
`int` conversion goes negative and `int(counter) % 3 = -2` is a
negative index, an out-of-range panic. -/
theorem c6_reconfigure_to_empty_faults :
    lookupHost (fun i => if i = 0 then ["10.0.0.1"] else [])
      osUnused validAll qAllFail 0 = none
    ∧ ns3 ≠ []
    ∧ selectNs (2 ^ 63) ns3 = none
    ∧ lookupHost (fun _ => ns3) osUnused validAll qAllFail (2 ^ 63) = none := by
  refine ⟨by decide, by decide, by decide, by decide⟩

/-- Claim C6, amended: each loop iteration reads the list's length and
contents together under its own read-lock acquisition and selects by
the counter's remainder modulo that same length, so the call never
faults provided every read — initial and per-iteration — observes a
nonempty list *and* the shared rotation counter stays below `2^63`
throughout the call (it is incremented once per failed attempt
starting from zero, so every reachable execution satisfies this).
A reconfiguration *can* still affect an in-flight call: later
iterations see the new list, shrinking it to empty mid-call faults,
and a counter at or above `2^63` converts to a negative `int` whose
remainder is a faulting negative index even on a nonempty list, as the
counterexample shows. -/
theorem c6_no_fault_when_reads_nonempty (obs : Nat → List String)
    (osLookup : Except String (List String)) (valid : String → Bool)
    (q : String → LookupResult) (c : Nat) (h : ∀ i, obs i ≠ [])
    (hc : c + (obs 0).length ≤ 2 ^ 63) :
    (lookupHost obs osLookup valid q c).isSome = true := by
  unfold lookupHost
  by_cases h0 : (obs 0).length = 0
  · exact absurd (List.eq_nil_of_length_eq_zero h0) (h 0)
  · simp only [if_neg h0]
    exact lookupLoop_isSome_of_nonempty obs q h ((obs 0).length) 1 c hc _

theorem c6_no_fault_when_reads_nonempty_witness :
    (∀ i : Nat, (fun _ : Nat => ns3) i ≠ [])
    ∧ 0 + ((fun _ : Nat => ns3) 0).length ≤ 2 ^ 63
    ∧ (lookupHost (fun _ => ns3) osUnused validAll qAllFail 0).isSome = true :=
  ⟨fun i => by simp [ns3],
   by decide,
   c6_no_fault_when_reads_nonempty (fun _ => ns3) osUnused validAll qAllFail 0
     (fun i => by simp [ns3]) (by decide)⟩

/-- Helper for C8: a left rotation of a three-element list is a
permutation of it. -/
theorem perm_rot3 {α : Type} (a b c : α) : List.Perm [b, c, a] [a, b, c] :=
  (List.Perm.cons b (List.Perm.swap a c [])).trans (List.Perm.swap a b [c])

/-- Helper for C8: the value-and-index part of one read on a
three-address set. -/
theorem getNext_three_fst (c : Nat) (x y z : String) :
    (Ips.getNextIPWithIndex ⟨c, [x, y, z]⟩).1 = ([x, y, z].get? (c % 3), c % 3) := by
  simp [Ips.getNextIPWithIndex]

/-- Helper for C8: the state part of one read on a three-address set,
below the `uint64` wrap. -/
theorem getNext_three_snd (c : Nat) (x y z : String) (hc : c + 1 < U64) :
    (Ips.getNextIPWithIndex ⟨c, [x, y, z]⟩).2 = ⟨c + 1, [x, y, z]⟩ := by
  simp [Ips.getNextIPWithIndex, Nat.mod_eq_of_lt hc]

/-- Claim C8: on an AddressSet holding exactly three addresses, read
sequentially, three consecutive `getNextIPWithIndex` reads return the
set's three addresses exactly once each (their values are a
permutation of the stored list), and the fourth read repeats the first
— same address and same index.  The cursor hypothesis rules out the
`uint64` wrap of the rotation counter, unreachable from a fresh set in
any real execution. -/
theorem c8_round_robin_full_cycle (s : Ips) (h3 : s.ipList.length = 3)
    (hw : s.ipIdx + 3 < U64) :
    List.Perm
      [(s.getNextIPWithIndex).1.1,
       ((s.getNextIPWithIndex).2.getNextIPWithIndex).1.1,
       (((s.getNextIPWithIndex).2.getNextIPWithIndex).2.getNextIPWithIndex).1.1]
      (s.ipList.map some)
    ∧ ((((s.getNextIPWithIndex).2.getNextIPWithIndex).2.getNextIPWithIndex).2.getNextIPWithIndex).1
        = (s.getNextIPWithIndex).1 := by
  obtain ⟨x, y, z, hl⟩ := List.length_eq_three.mp h3
  rcases s with ⟨c, l⟩
  simp only at hl hw
  subst hl
  have k1 : c + 1 < U64 := by omega
  have k2 : c + 1 + 1 < U64 := by omega
  have k3 : c + 2 + 1 < U64 := by omega
  rw [getNext_three_snd c x y z k1, getNext_three_snd (c + 1) x y z k2,
    getNext_three_snd (c + 2) x y z k3, getNext_three_fst c x y z,
    getNext_three_fst (c + 1) x y z, getNext_three_fst (c + 2) x y z,
    getNext_three_fst (c + 3) x y z]
  have hm : c % 3 = 0 ∨ c % 3 = 1 ∨ c % 3 = 2 := by omega
  have h43 : (c + 3) % 3 = c % 3 := by omega
  rcases hm with hm | hm | hm
  · have e1 : (c + 1) % 3 = 1 := by omega
    have e2 : (c + 2) % 3 = 2 := by omega
    rw [hm, e1, e2, h43, hm]
    exact ⟨by simp, rfl⟩
  · have e1 : (c + 1) % 3 = 2 := by omega
    have e2 : (c + 2) % 3 = 0 := by omega
    rw [hm, e1, e2, h43, hm]
    exact ⟨by simpa using perm_rot3 (some x) (some y) (some z), rfl⟩
  · have e1 : (c + 1) % 3 = 0 := by omega
    have e2 : (c + 2) % 3 = 1 := by omega
    rw [hm, e1, e2, h43, hm]
    exact ⟨by simpa using (perm_rot3 (some z) (some x) (some y)).symm, rfl⟩

theorem c8_round_robin_full_cycle_witness :
    (Ips.ipList ⟨0, ["198.51.100.1", "198.51.100.2", "198.51.100.3"]⟩).length = 3
    ∧ Ips.ipIdx ⟨0, ["198.51.100.1", "198.51.100.2", "198.51.100.3"]⟩ + 3 < U64
    ∧ (List.Perm
        [((⟨0, ["198.51.100.1", "198.51.100.2", "198.51.100.3"]⟩ : Ips).getNextIPWithIndex).1.1,
         (((⟨0, ["198.51.100.1", "198.51.100.2", "198.51.100.3"]⟩ : Ips).getNextIPWithIndex).2.getNextIPWithIndex).1.1,
         ((((⟨0, ["198.51.100.1", "198.51.100.2", "198.51.100.3"]⟩ : Ips).getNextIPWithIndex).2.getNextIPWithIndex).2.getNextIPWithIndex).1.1]
        ((Ips.ipList ⟨0, ["198.51.100.1", "198.51.100.2", "198.51.100.3"]⟩).map some)
       ∧ (((((⟨0, ["198.51.100.1", "198.51.100.2", "198.51.100.3"]⟩ : Ips).getNextIPWithIndex).2.getNextIPWithIndex).2.getNextIPWithIndex).2.getNextIPWithIndex).1
           = ((⟨0, ["198.51.100.1", "198.51.100.2", "198.51.100.3"]⟩ : Ips).getNextIPWithIndex).1) :=
  ⟨by decide, by decide,
   c8_round_robin_full_cycle ⟨0, ["198.51.100.1", "198.51.100.2", "198.51.100.3"]⟩
     (by decide) (by decide)⟩

/-- Helper for C9: a name that `List.lookup` misses has no binding at
all. -/
theorem countP_eq_zero_of_lookup_none (n : String) :
    ∀ l : List (String × Nat), l.lookup n = none →
      l.countP (fun p => n == p.1) = 0 := by
  intro l
  induction l with
  | nil => intro _; rfl
  | cons kv es ih =>
    intro h
    rcases kv with ⟨k, v⟩
    simp only [List.lookup] at h
    cases hk : (n == k) with
    | true => rw [hk] at h; cases h
    | false =>
      rw [hk] at h
      simp [List.countP_cons, hk, ih h]

/-- Claim C9: hostname-to-entry creation is race-free and idempotent.
With at most one binding per hostname and `n` unbound: (a) `AddHost`
twice for `n` equals `AddHost` once — the second call neither changes
the registry nor allocates another entry/background task; (b) every
hostname still has at most one binding afterwards, and `n` exactly
one; (c) two callers racing through the implicit-creation path of
`GetNextIPWithIdx` / `GetNextIP6WithIdx` — both having missed under
the read lock — run their double-checked write-locked sections in
sequence: the second finds the first's entry, both obtain the same
entry id, the map keeps a single binding for `n`, and exactly one
entry (one background task) was allocated. -/
theorem c9_single_entry_per_hostname (r : Registry) (n : String)
    (now now1 now2 : Int)
    (hinv : ∀ k : String, r.hosts.countP (fun p => k == p.1) ≤ 1)
    (hnone : r.hosts.lookup n = none) :
    ((r.addHost n now).addHost n now1 = r.addHost n now)
    ∧ (∀ k : String, (r.addHost n now).hosts.countP (fun p => k == p.1) ≤ 1)
    ∧ (r.addHost n now).hosts.countP (fun p => n == p.1) = 1
    ∧ ((r.getOrCreateLocked n false now1).1.getOrCreateLocked n false now2).2
        = (r.getOrCreateLocked n false now1).2
    ∧ ((r.getOrCreateLocked n false now1).1.getOrCreateLocked n false now2).1
        = (r.getOrCreateLocked n false now1).1
    ∧ (r.getOrCreateLocked n false now1).1.hosts.countP (fun p => n == p.1) = 1
    ∧ (r.getOrCreateLocked n false now1).1.nextId = r.nextId + 1 := by
  have hzero : r.hosts.countP (fun p => n == p.1) = 0 :=
    countP_eq_zero_of_lookup_none n r.hosts hnone
  have hadd : r.addHost n now =
      ⟨(n, r.nextId) :: r.hosts, (r.nextId, newHost n true now) :: r.entries,
        r.nextId + 1⟩ := by
    simp [Registry.addHost, Registry.getOrCreateLocked, hnone]
  have hlock : r.getOrCreateLocked n false now1 =
      (⟨(n, r.nextId) :: r.hosts, (r.nextId, newHost n false now1) :: r.entries,
        r.nextId + 1⟩, r.nextId) := by
    simp [Registry.getOrCreateLocked, hnone]
  have hfound : ((n, r.nextId) :: r.hosts).lookup n = some r.nextId := by
    simp [List.lookup]
  refine ⟨?_, ?_, ?_, ?_, ?_, ?_, ?_⟩
  · rw [hadd]
    simp [Registry.addHost, hfound]
  · intro k
    rw [hadd]
    by_cases hkn : k = n
    · subst hkn
      simp [List.countP_cons, hzero]
    · have hbk : (k == n) = false := by
        simp [hkn]
      simpa [List.countP_cons, hbk] using hinv k
  · rw [hadd]
    simp [List.countP_cons, hzero]
  · rw [hlock]
    simp [Registry.getOrCreateLocked, hfound]
  · rw [hlock]
    simp [Registry.getOrCreateLocked, hfound]
  · rw [hlock]
    simp [List.countP_cons, hzero]
  · rw [hlock]

theorem c9_single_entry_per_hostname_witness :
    (∀ k : String, emptyRegistry.hosts.countP (fun p => k == p.1) ≤ 1)
    ∧ emptyRegistry.hosts.lookup "api.example" = none
    ∧ (((emptyRegistry.addHost "api.example" 5).addHost "api.example" 6
          = emptyRegistry.addHost "api.example" 5)
       ∧ (∀ k : String,
            (emptyRegistry.addHost "api.example" 5).hosts.countP
              (fun p => k == p.1) ≤ 1)
       ∧ (emptyRegistry.addHost "api.example" 5).hosts.countP
            (fun p => "api.example" == p.1) = 1
       ∧ ((emptyRegistry.getOrCreateLocked "api.example" false 6).1.getOrCreateLocked
            "api.example" false 7).2
           = (emptyRegistry.getOrCreateLocked "api.example" false 6).2
       ∧ ((emptyRegistry.getOrCreateLocked "api.example" false 6).1.getOrCreateLocked
            "api.example" false 7).1
           = (emptyRegistry.getOrCreateLocked "api.example" false 6).1
       ∧ (emptyRegistry.getOrCreateLocked "api.example" false 6).1.hosts.countP
            (fun p => "api.example" == p.1) = 1
       ∧ (emptyRegistry.getOrCreateLocked "api.example" false 6).1.nextId
           = emptyRegistry.nextId + 1) :=
  ⟨fun k => by simp [emptyRegistry],
   rfl,
   c9_single_entry_per_hostname emptyRegistry "api.example" 5 6 7
     (fun k => by simp [emptyRegistry]) rfl⟩

end DnsResolver
